import Mathlib

/-!
Verification of the approval chat daemon relay/checkpoint engine.

The definitions below are a shallow embedding of the per-cycle, per-request
message handling of the daemon variants in the repository:

* namespace `MultiAgent` embeds approval_chat_daemon_multi_agent.py; its
  message-selection and send loop are shared verbatim by
  approval_chat_daemon_universal.py and by the ApprovalChatDaemon class of
  approval_chat_daemon_universal_v2.py;
* namespace `DaemonV2` embeds approval_chat_daemon_v2.py;
* namespace `UniversalV2` embeds the parts specific to
  approval_chat_daemon_universal_v2.py: the retry loop of _api_call and the
  structure of run_continuous.

Timestamps are ISO-8601 strings, compared exactly as Python compares str
values: lexicographically by code point (`pyStrGt`). Network effects (HTTP
attempt outcomes, send_message results) enter as explicit oracle functions,
so every definition is a pure, executable function of its inputs.
-/

/-- Python `<` on single characters: comparison of code points. -/
def charCodeLt (a b : Char) : Bool := Nat.blt a.toNat b.toNat

/-- Python `<` on strings viewed as code-point sequences: lexicographic
comparison, shorter prefix first. -/
def listCharLt : List Char → List Char → Bool
  | [], [] => false
  | [], _ :: _ => true
  | _ :: _, [] => false
  | a :: as, b :: bs =>
    if charCodeLt a b then true
    else if charCodeLt b a then false
    else listCharLt as bs

/-- Python `a < b` on str values. -/
def pyStrLt (a b : String) : Bool := listCharLt a.data b.data

/-- Python `a > b` on str values, as used by the timestamp filters
`m.get('created_at', '') > since`. -/
def pyStrGt (a b : String) : Bool := pyStrLt b a

/-- Whitespace as stripped by Python str.strip() for the ASCII range. -/
def pyIsSpace (c : Char) : Bool :=
  c == ' ' || c == '\t' || c == '\n' || c == '\r' || c == '\x0b' || c == '\x0c'

/-- Drop leading whitespace code points. -/
def dropLeadingSpace : List Char → List Char
  | [] => []
  | c :: rest => if pyIsSpace c then dropLeadingSpace rest else c :: rest

/-- Whether `s.strip()` is empty, i.e. Python `not s.strip()`: true exactly
when every character of `s` is whitespace. Only this emptiness test of the
stripped message influences the daemon state. -/
def strippedEmpty (s : String) : Bool :=
  (dropLeadingSpace s.data).isEmpty

/-- One chat message as returned by the gateway: the fields of the
`messages` JSON objects that the daemons read. A JSON field that is absent
is embedded as `""`, matching the `m.get(key, '')` defaults of the source
(for the `sender` comparisons used below, Python None behaves like `""`:
both differ from 'user' and from 'agent'). -/
structure ChatMessage where
  mid : String
  sender : String
  message : String
  created_at : String
deriving DecidableEq, Repr

/-- Outcome of one execution of the poll-cycle body as observed by the
daemon loop: it returns normally, raises an ordinary Exception, or raises
KeyboardInterrupt (which in Python 3 is not an Exception subclass). -/
inductive CycleOutcome
  | ok
  | exc
  | kb
deriving DecidableEq, Repr

/-- How a run of the daemon loop over a finite trace of cycle outcomes
ends: still inside the loop when the trace is exhausted, stopped by
KeyboardInterrupt, or killed by an uncaught exception. -/
inductive ExitKind
  | stillRunning
  | interrupt
  | crash
deriving DecidableEq, Repr

/-- Result of running the daemon loop over a finite trace: how many cycles
were started, how the loop ended, and whether the exit path called
_save_state one final time. -/
structure LoopResult where
  cyclesStarted : Nat
  exitKind : ExitKind
  finalSave : Bool
deriving DecidableEq, Repr

/-- The same loop result one cycle later. -/
def LoopResult.afterCycle (r : LoopResult) : LoopResult :=
  ⟨r.cyclesStarted + 1, r.exitKind, r.finalSave⟩

namespace MultiAgent

/-- The default used when a request has no stored checkpoint:
`self.state['last_checks'].get(request_id, '2000-01-01T00:00:00Z')`. -/
def defaultLastCheck : String := "2000-01-01T00:00:00Z"

/-- The `last_check` value process_approval computes from the stored
checkpoint entry for the request (None when the request was never seen). -/
def lastCheck (ck : Option String) : String := ck.getD defaultLastCheck

/-- Pure part of get_messages after the HTTP fetch: keep messages with
`sender == 'user'`; then, when `since` is truthy (not None and not the
empty string), keep messages with `created_at > since`. -/
def get_messages_filter (msgs : List ChatMessage) (since : Option String) :
    List ChatMessage :=
  let users := msgs.filter (fun m => m.sender == "user")
  match since with
  | none => users
  | some s => if s == "" then users else users.filter (fun m => pyStrGt m.created_at s)

/-- The per-message send loop of process_approval: skip a message whose
stripped text is empty; otherwise send a reply; if send_message reports
success, set `state['last_checks'][request_id] = created_at` of that
message (and _save_state) and count the response; on failure leave the
state unchanged and continue with the next message. `sendOk m` is the
outcome send_message reports for the reply to `m`. Returns the checkpoint
entry for the request after the loop together with the response count. -/
def process_batch (sendOk : ChatMessage → Bool) (msgs : List ChatMessage)
    (ck : Option String) : Option String × Nat :=
  msgs.foldl
    (fun acc m =>
      if strippedEmpty m.message then acc
      else if sendOk m then (some m.created_at, acc.2 + 1)
      else acc)
    (ck, 0)

/-- process_approval for one request: compute `last_check` (with the
year-2000 default), filter the fetched messages, then run the send loop.
`fetched` is the raw message list of the gateway response and `ck` the
stored checkpoint entry for this request. -/
def process_approval (sendOk : ChatMessage → Bool) (fetched : List ChatMessage)
    (ck : Option String) : Option String × Nat :=
  process_batch sendOk (get_messages_filter fetched (some (lastCheck ck))) ck

/-- _api_call of the multi_agent (and universal, v2) variant: one single
HTTP attempt; URLError and HTTPError are caught and yield None. `oracle i`
is the outcome of the i-th attempt (`none` a network error, `some v` a
response body). Returns the result and the number of attempts made. -/
def api_call {α : Type} (oracle : Nat → Option α) : Option α × Nat :=
  (oracle 0, 1)

/-- run_continuous of the multi_agent variant: one try block surrounds the
whole while-loop and catches only KeyboardInterrupt (then calls
_save_state); any other exception escapes the loop and the process, with no
final save. -/
def run_continuous : List CycleOutcome → LoopResult
  | [] => ⟨0, ExitKind.stillRunning, false⟩
  | CycleOutcome.ok :: rest => (run_continuous rest).afterCycle
  | CycleOutcome.exc :: _ => ⟨1, ExitKind.crash, false⟩
  | CycleOutcome.kb :: _ => ⟨1, ExitKind.interrupt, true⟩

end MultiAgent

namespace DaemonV2

/-- The new-message selection inside poll_once: keep messages with
`msg.get('sender') != 'agent'` whose `created_at` is strictly greater than
the stored checkpoint, or all of them when no checkpoint is stored
(`last_check is None`). -/
def selectNew (msgs : List ChatMessage) (last_check : Option String) :
    List ChatMessage :=
  msgs.filter (fun m =>
    m.sender != "agent" &&
    (match last_check with
     | none => true
     | some c => pyStrGt m.created_at c))

/-- The per-request body of poll_once: when the selection is nonempty, post
one reply per selected message (the api_post outcome is only logged) and
then set `state['last_checks'][request_id] = now`, the wall-clock timestamp
captured at the start of the cycle; when the selection is empty the
checkpoint entry is left unchanged. Returns the checkpoint entry for the
request after the cycle. -/
def process_request (sendOk : ChatMessage → Bool) (now : String)
    (msgs : List ChatMessage) (ck : Option String) : Option String :=
  let new_messages := selectNew msgs ck
  if new_messages.isEmpty then ck
  else
    let _post_results := new_messages.map sendOk
    some now

/-- run of the v2 variant: each cycle is wrapped in its own try; except
KeyboardInterrupt breaks out of the loop with no further save; except
Exception logs and the loop continues. -/
def run : List CycleOutcome → LoopResult
  | [] => ⟨0, ExitKind.stillRunning, false⟩
  | CycleOutcome.ok :: rest => (run rest).afterCycle
  | CycleOutcome.exc :: rest => (run rest).afterCycle
  | CycleOutcome.kb :: _ => ⟨1, ExitKind.interrupt, false⟩

end DaemonV2

namespace UniversalV2

/-- RETRY_DELAYS = [0, 1, 2] (seconds slept before each attempt). -/
def RETRY_DELAYS : List Nat := [0, 1, 2]

/-- The retry loop of _api_call in the universal_v2 variant, recursing over
the remaining delay table with `i` the index of the next attempt. `oracle i`
is the outcome of the i-th HTTP attempt: `none` for URLError or HTTPError,
`some v` for a response body. Returns the result, the number of attempts
made, and the delay slept before each attempt (an entry 0 means no sleep).
On a failure of the final attempt the call returns None rather than
raising. -/
def api_call_loop {α : Type} (oracle : Nat → Option α) :
    List Nat → Nat → Option α × Nat × List Nat
  | [], _ => (none, 0, [])
  | d :: rest, i =>
    match oracle i with
    | some v => (some v, 1, [d])
    | none =>
      if rest.isEmpty then (none, 1, [d])
      else
        let r := api_call_loop oracle rest (i + 1)
        (r.1, r.2.1 + 1, d :: r.2.2)

/-- _api_call of the universal_v2 variant: the retry loop over
RETRY_DELAYS. -/
def api_call {α : Type} (oracle : Nat → Option α) : Option α × Nat × List Nat :=
  api_call_loop oracle RETRY_DELAYS 0

/-- run_continuous of the universal_v2 variant: an inner try catches
Exception (KeyboardInterrupt is not an Exception in Python 3) and the loop
continues; the outer try catches KeyboardInterrupt and calls _save_state
before returning. -/
def run_continuous : List CycleOutcome → LoopResult
  | [] => ⟨0, ExitKind.stillRunning, false⟩
  | CycleOutcome.ok :: rest => (run_continuous rest).afterCycle
  | CycleOutcome.exc :: rest => (run_continuous rest).afterCycle
  | CycleOutcome.kb :: _ => ⟨1, ExitKind.interrupt, true⟩

end UniversalV2

/-- The daemon state: `{'last_checks': {...}, 'last_poll': ...}`, with the
per-request checkpoint map embedded as an association list. -/
structure DaemonState where
  last_checks : List (String × String)
  last_poll : Option String
deriving DecidableEq, Repr

/-- The fresh default state `{'last_checks': {}, 'last_poll': None}`. -/
def freshState : DaemonState := ⟨[], none⟩

/-- The mutually exclusive outcomes of opening the state file in text mode
and reading it, as observed inside the try block: the file is absent
(os.path.exists false), opening or reading raises IOError, the bytes of the
existing file cannot be decoded as text so the read inside json.load raises
UnicodeDecodeError, or the decoded text is obtained. -/
inductive FileRead
  | missing
  | ioError
  | undecodable
  | content (s : String)
deriving DecidableEq

/-- An exception class that escapes the except clause of load_state:
UnicodeDecodeError is a ValueError but neither a json.JSONDecodeError nor an
IOError, so `except (json.JSONDecodeError, IOError)` does not catch it. -/
inductive PyUncaught
  | unicodeDecodeError
deriving DecidableEq, Repr

/-- load_state (textually identical in all three variants): if the state
file exists, try to open and parse it; json.JSONDecodeError and IOError are
caught and fall through to the fresh default state (also returned when the
file is absent); a UnicodeDecodeError raised while decoding the file is not
caught and propagates out of load_state, crashing startup. `parse` stands
for json.load on the decoded text, with `none` a JSONDecodeError. -/
def load_state (parse : String → Option DaemonState) :
    FileRead → Except PyUncaught DaemonState
  | FileRead.missing => Except.ok freshState
  | FileRead.ioError => Except.ok freshState
  | FileRead.undecodable => Except.error PyUncaught.unicodeDecodeError
  | FileRead.content s =>
    Except.ok (match parse s with
      | none => freshState
      | some st => st)

/-- Ascending created_at order (the conversational order of the spec): no
earlier list element has a strictly greater timestamp than a later one. -/
def AscendingByCreatedAt (l : List ChatMessage) : Prop :=
  List.Pairwise (fun a b => pyStrGt a.created_at b.created_at = false) l

instance (l : List ChatMessage) : Decidable (AscendingByCreatedAt l) :=
  inferInstanceAs (Decidable (List.Pairwise _ l))

theorem MultiAgent.get_messages_filter_eq (msgs : List ChatMessage) (s : String) :
    MultiAgent.get_messages_filter msgs (some s)
      = if s == "" then msgs.filter (fun m => m.sender == "user")
        else (msgs.filter (fun m => m.sender == "user")).filter
          (fun m => pyStrGt m.created_at s) := rfl

theorem MultiAgent.mem_users_of_mem_filter {msgs : List ChatMessage}
    {since : Option String} {m : ChatMessage}
    (hm : m ∈ MultiAgent.get_messages_filter msgs since) :
    m ∈ msgs.filter (fun x => x.sender == "user") := by
  cases since with
  | none => exact hm
  | some s =>
    rw [MultiAgent.get_messages_filter_eq] at hm
    cases hs : (s == "") with
    | true => rw [hs] at hm; simpa using hm
    | false =>
      rw [hs] at hm
      simp only [Bool.false_eq_true, if_false] at hm
      exact List.mem_of_mem_filter hm

theorem DaemonV2.selectNew_none (msgs : List ChatMessage) :
    DaemonV2.selectNew msgs none = msgs.filter (fun m => m.sender != "agent") := by
  simp [DaemonV2.selectNew]

theorem DaemonV2.selectNew_some (msgs : List ChatMessage) (c : String) :
    DaemonV2.selectNew msgs (some c)
      = msgs.filter (fun m => m.sender != "agent" && pyStrGt m.created_at c) := rfl

/-- C1: the claim fails on the code. In the v2 variant, a new user message
at t = 2025-01-01 whose reply post fails still causes the checkpoint to be
set to the wall-clock now of the cycle, past t, so the message is no longer
selected on the next cycle. In the multi_agent variant, when the reply to
the message at t fails but the reply to a later message succeeds, the
checkpoint likewise advances past t and the failed message at t is never
selected again. -/
theorem C1_failed_send_checkpoint_advances :
    DaemonV2.process_request (fun _ => false) "2025-06-01T00:00:00Z"
        [⟨"m1", "user", "why this vendor?", "2025-01-01T00:00:00Z"⟩] none
      = some "2025-06-01T00:00:00Z"
    ∧ DaemonV2.selectNew [⟨"m1", "user", "why this vendor?", "2025-01-01T00:00:00Z"⟩]
        (some "2025-06-01T00:00:00Z") = []
    ∧ MultiAgent.process_approval (fun m => m.mid == "m2")
        [⟨"m1", "user", "first question", "2025-01-01T00:00:00Z"⟩,
         ⟨"m2", "user", "second question", "2025-01-02T00:00:00Z"⟩] none
      = (some "2025-01-02T00:00:00Z", 1)
    ∧ MultiAgent.get_messages_filter
        [⟨"m1", "user", "first question", "2025-01-01T00:00:00Z"⟩]
        (some "2025-01-02T00:00:00Z") = [] := by
  decide

/-- C2: the claim fails on the code. In the v2 variant the checkpoint after
a batch is the wall-clock now captured at the start of the cycle, not the
maximum created_at among delivered messages, even when every reply is
delivered. In the multi_agent variant the checkpoint after the batch is the
created_at of the last delivered message in fetched order, which is not the
maximum when the gateway returns the batch out of order. -/
theorem C2_checkpoint_wall_clock_not_max_delivered :
    DaemonV2.process_request (fun _ => true) "2025-06-01T00:00:00Z"
        [⟨"m1", "user", "a question", "2025-01-01T00:00:00Z"⟩] none
      = some "2025-06-01T00:00:00Z"
    ∧ ("2025-06-01T00:00:00Z" : String) ≠ "2025-01-01T00:00:00Z"
    ∧ MultiAgent.process_approval (fun _ => true)
        [⟨"mB", "user", "later question", "2025-01-02T00:00:00Z"⟩,
         ⟨"mA", "user", "earlier question", "2025-01-01T00:00:00Z"⟩] none
      = (some "2025-01-01T00:00:00Z", 2)
    ∧ pyStrGt "2025-01-02T00:00:00Z" "2025-01-01T00:00:00Z" = true := by
  decide

/-- C3: the claim fails on the code. In the v2 variant the checkpoint entry
is changed to the wall-clock now although no reply was handed off (every
post fails), violating changed-only-after-successful-handoff. In the
multi_agent variant, processing a batch fetched in the order
[2025-01-02, 2025-01-01] with both replies delivered first stores
2025-01-02 and then stores the strictly smaller 2025-01-01, violating
monotonicity. -/
theorem C3_checkpoint_changed_without_handoff :
    DaemonV2.process_request (fun _ => false) "2025-06-01T00:00:00Z"
        [⟨"m1", "user", "a question", "2025-01-01T00:00:00Z"⟩]
        (some "2024-01-01T00:00:00Z")
      = some "2025-06-01T00:00:00Z"
    ∧ ("2025-06-01T00:00:00Z" : String) ≠ "2024-01-01T00:00:00Z"
    ∧ (MultiAgent.process_batch (fun _ => true)
        [⟨"mB", "user", "later question", "2025-01-02T00:00:00Z"⟩] none).1
      = some "2025-01-02T00:00:00Z"
    ∧ (MultiAgent.process_batch (fun _ => true)
        [⟨"mB", "user", "later question", "2025-01-02T00:00:00Z"⟩,
         ⟨"mA", "user", "earlier question", "2025-01-01T00:00:00Z"⟩] none).1
      = some "2025-01-01T00:00:00Z"
    ∧ pyStrGt "2025-01-02T00:00:00Z" "2025-01-01T00:00:00Z" = true := by
  decide

/-- C4 counterexample: the claim fails as stated on the v2 variant, whose
selection keeps any message whose sender is not exactly agent; a message
with sender system and a fresh checkpoint is present in the output although
its sender is not user. -/
theorem C4_nonuser_sender_selected :
    DaemonV2.selectNew [⟨"m1", "system", "maintenance note", "2025-01-01T00:00:00Z"⟩] none
      = [⟨"m1", "system", "maintenance note", "2025-01-01T00:00:00Z"⟩]
    ∧ ("system" : String) ≠ "user" := by
  decide

/-- C4 amended: the multi_agent (and universal) selection keeps only
messages with sender equal to user; the v2 selection keeps exactly the
messages whose sender is not agent (so a sender such as system passes); in
every variant a message with sender agent is never present in the output,
regardless of its timestamp. -/
theorem C4_sender_filter_amended :
    (∀ (msgs : List ChatMessage) (since : Option String) (m : ChatMessage),
      m ∈ MultiAgent.get_messages_filter msgs since → m.sender = "user")
    ∧ (∀ (msgs : List ChatMessage) (ck : Option String) (m : ChatMessage),
      m ∈ DaemonV2.selectNew msgs ck → m.sender ≠ "agent") := by
  constructor
  · intro msgs since m hm
    have h := (List.mem_filter.mp (MultiAgent.mem_users_of_mem_filter hm)).2
    simpa using h
  · intro msgs ck m hm
    have h := (List.mem_filter.mp hm).2
    have h2 : (m.sender != "agent") = true := by
      cases hb : (m.sender != "agent") with
      | true => rfl
      | false => rw [hb] at h; simp at h
    simpa using h2

/-- C4 amended witness: instantiating the amended theorem at concrete
inputs: a sender user message selected by the multi_agent filter has sender
user, and a sender system message selected by the v2 filter is not from the
agent. -/
theorem C4_sender_filter_amended_witness :
    (⟨"w1", "user", "hello", "2025-01-01T00:00:00Z"⟩ : ChatMessage).sender = "user"
    ∧ (⟨"w2", "system", "note", "2025-01-01T00:00:00Z"⟩ : ChatMessage).sender ≠ "agent" :=
  ⟨C4_sender_filter_amended.1 [⟨"w1", "user", "hello", "2025-01-01T00:00:00Z"⟩] none
      ⟨"w1", "user", "hello", "2025-01-01T00:00:00Z"⟩ (by decide),
   C4_sender_filter_amended.2 [⟨"w2", "system", "note", "2025-01-01T00:00:00Z"⟩] none
      ⟨"w2", "system", "note", "2025-01-01T00:00:00Z"⟩ (by decide)⟩

/-- C5: confirmed. With a present checkpoint timestamp (a non-empty
string), every selected message has created_at strictly greater than the
checkpoint, in both the multi_agent and the v2 variants; a message whose
created_at equals the checkpoint is excluded; and on the concrete restart
example, with checkpoint 2025-01-01T00:00:00Z and user messages at
2024-12-31T23:59:59Z and 2025-01-02T00:00:00Z, only the second is
selected. -/
theorem C5_strict_checkpoint_filter :
    (∀ (msgs : List ChatMessage) (c : String), c ≠ "" →
      ∀ m ∈ MultiAgent.get_messages_filter msgs (some c), pyStrGt m.created_at c = true)
    ∧ (∀ (msgs : List ChatMessage) (c : String),
      ∀ m ∈ DaemonV2.selectNew msgs (some c), pyStrGt m.created_at c = true)
    ∧ MultiAgent.get_messages_filter
        [⟨"m1", "user", "early question", "2024-12-31T23:59:59Z"⟩,
         ⟨"m2", "user", "late question", "2025-01-02T00:00:00Z"⟩]
        (some "2025-01-01T00:00:00Z")
      = [⟨"m2", "user", "late question", "2025-01-02T00:00:00Z"⟩]
    ∧ DaemonV2.selectNew
        [⟨"m1", "user", "early question", "2024-12-31T23:59:59Z"⟩,
         ⟨"m2", "user", "late question", "2025-01-02T00:00:00Z"⟩]
        (some "2025-01-01T00:00:00Z")
      = [⟨"m2", "user", "late question", "2025-01-02T00:00:00Z"⟩]
    ∧ MultiAgent.get_messages_filter
        [⟨"m3", "user", "same instant", "2025-01-01T00:00:00Z"⟩]
        (some "2025-01-01T00:00:00Z") = [] := by
  refine ⟨?_, ?_, by decide, by decide, by decide⟩
  · intro msgs c hc m hm
    have hc2 : (c == "") = false := by
      cases hb : (c == "") with
      | true => exact absurd (by simpa using hb) hc
      | false => rfl
    rw [MultiAgent.get_messages_filter_eq, hc2] at hm
    simp only [Bool.false_eq_true, if_false] at hm
    exact (List.mem_filter.mp hm).2
  · intro msgs c m hm
    rw [DaemonV2.selectNew_some] at hm
    have h := (List.mem_filter.mp hm).2
    exact (Bool.and_eq_true _ _ |>.mp h).2

/-- C5 witness: the strict-filter theorem applied at the concrete restart
example, with the non-emptiness hypothesis and the membership hypothesis
discharged there. -/
theorem C5_strict_checkpoint_filter_witness :
    pyStrGt "2025-01-02T00:00:00Z" "2025-01-01T00:00:00Z" = true :=
  C5_strict_checkpoint_filter.1
    [⟨"m2", "user", "late question", "2025-01-02T00:00:00Z"⟩]
    "2025-01-01T00:00:00Z" (by decide)
    ⟨"m2", "user", "late question", "2025-01-02T00:00:00Z"⟩ (by decide)

/-- C6 counterexample: the claim fails as stated on the multi_agent
variant, where an absent checkpoint defaults to 2000-01-01T00:00:00Z: a
qualifying user message older than that sentinel is not treated as new. -/
theorem C6_old_message_not_selected :
    MultiAgent.lastCheck none = "2000-01-01T00:00:00Z"
    ∧ (⟨"m1", "user", "old question", "1999-06-15T12:00:00Z"⟩ : ChatMessage).sender = "user"
    ∧ MultiAgent.get_messages_filter
        [⟨"m1", "user", "old question", "1999-06-15T12:00:00Z"⟩]
        (some (MultiAgent.lastCheck none)) = [] := by
  decide

/-- C6 amended: in the v2 variant an absent checkpoint makes every
qualifying message new, regardless of age; in the multi_agent variant an
absent checkpoint behaves as the sentinel 2000-01-01T00:00:00Z, and the
qualifying user messages treated as new are exactly those with created_at
strictly greater than that sentinel. -/
theorem C6_first_seen_amended :
    (∀ (msgs : List ChatMessage) (m : ChatMessage),
      m ∈ msgs → m.sender ≠ "agent" → m ∈ DaemonV2.selectNew msgs none)
    ∧ (∀ (msgs : List ChatMessage) (m : ChatMessage),
      m ∈ MultiAgent.get_messages_filter msgs (some (MultiAgent.lastCheck none)) ↔
        m ∈ msgs ∧ m.sender = "user"
          ∧ pyStrGt m.created_at MultiAgent.defaultLastCheck = true) := by
  constructor
  · intro msgs m hmem hsender
    rw [DaemonV2.selectNew_none]
    refine List.mem_filter.mpr ⟨hmem, ?_⟩
    simpa using hsender
  · intro msgs m
    have hd : MultiAgent.lastCheck none = MultiAgent.defaultLastCheck := rfl
    rw [hd, MultiAgent.get_messages_filter_eq]
    have hne : (MultiAgent.defaultLastCheck == "") = false := by decide
    rw [hne]
    simp only [Bool.false_eq_true, if_false]
    constructor
    · intro hm
      obtain ⟨hu, hgt⟩ := List.mem_filter.mp hm
      obtain ⟨hmem, hsender⟩ := List.mem_filter.mp hu
      exact ⟨hmem, by simpa using hsender, hgt⟩
    · intro ⟨hmem, hsender, hgt⟩
      exact List.mem_filter.mpr ⟨List.mem_filter.mpr ⟨hmem, by simpa using hsender⟩, hgt⟩

/-- C6 amended witness: the amended theorem applied to a concrete user
message from 1999: with no stored checkpoint the v2 selection keeps it. -/
theorem C6_first_seen_amended_witness :
    (⟨"w3", "user", "hello", "1999-01-01T00:00:00Z"⟩ : ChatMessage)
      ∈ DaemonV2.selectNew [⟨"w3", "user", "hello", "1999-01-01T00:00:00Z"⟩] none :=
  C6_first_seen_amended.1 [⟨"w3", "user", "hello", "1999-01-01T00:00:00Z"⟩]
    ⟨"w3", "user", "hello", "1999-01-01T00:00:00Z"⟩ (by decide) (by decide)

/-- C7 counterexample: the claim fails as stated: the selection never
sorts, so with the qualifying user messages (timestamps t1 < t2 < t3, all
newer than the checkpoint) presented by the gateway in the order
[t3, t1, t2], the output is in that same, non-ascending order. -/
theorem C7_output_not_sorted :
    MultiAgent.get_messages_filter
        [⟨"m3", "user", "third question", "2025-01-03T00:00:00Z"⟩,
         ⟨"m1", "user", "first question", "2025-01-01T00:00:00Z"⟩,
         ⟨"m2", "user", "second question", "2025-01-02T00:00:00Z"⟩]
        (some "2020-01-01T00:00:00Z")
      = [⟨"m3", "user", "third question", "2025-01-03T00:00:00Z"⟩,
         ⟨"m1", "user", "first question", "2025-01-01T00:00:00Z"⟩,
         ⟨"m2", "user", "second question", "2025-01-02T00:00:00Z"⟩]
    ∧ ¬ AscendingByCreatedAt
        [⟨"m3", "user", "third question", "2025-01-03T00:00:00Z"⟩,
         ⟨"m1", "user", "first question", "2025-01-01T00:00:00Z"⟩,
         ⟨"m2", "user", "second question", "2025-01-02T00:00:00Z"⟩]
    ∧ pyStrGt "2025-01-02T00:00:00Z" "2025-01-01T00:00:00Z" = true
    ∧ pyStrGt "2025-01-03T00:00:00Z" "2025-01-02T00:00:00Z" = true := by
  decide

/-- C7 amended: the selection preserves the order in which the gateway
returned the messages: its output is a sublist of the input, in both
variants; hence the output is in ascending created_at order whenever the
input list is, but an input presented out of order is returned in that
same order, not sorted. -/
theorem C7_order_preserved_amended :
    (∀ (msgs : List ChatMessage) (since : Option String),
      (MultiAgent.get_messages_filter msgs since).Sublist msgs)
    ∧ (∀ (msgs : List ChatMessage) (ck : Option String),
      (DaemonV2.selectNew msgs ck).Sublist msgs)
    ∧ (∀ (msgs : List ChatMessage) (since : Option String),
      AscendingByCreatedAt msgs →
        AscendingByCreatedAt (MultiAgent.get_messages_filter msgs since))
    ∧ (∀ (msgs : List ChatMessage) (ck : Option String),
      AscendingByCreatedAt msgs → AscendingByCreatedAt (DaemonV2.selectNew msgs ck)) := by
  have hMA : ∀ (msgs : List ChatMessage) (since : Option String),
      (MultiAgent.get_messages_filter msgs since).Sublist msgs := by
    intro msgs since
    cases since with
    | none => exact List.filter_sublist msgs
    | some s =>
      rw [MultiAgent.get_messages_filter_eq]
      cases hs : (s == "") with
      | true => simp [hs]
      | false =>
        simp only [hs, Bool.false_eq_true, if_false]
        exact (List.filter_sublist _).trans (List.filter_sublist msgs)
  have hV2 : ∀ (msgs : List ChatMessage) (ck : Option String),
      (DaemonV2.selectNew msgs ck).Sublist msgs := by
    intro msgs ck
    exact List.filter_sublist msgs
  exact ⟨hMA, hV2,
    fun msgs since h => List.Pairwise.sublist (hMA msgs since) h,
    fun msgs ck h => List.Pairwise.sublist (hV2 msgs ck) h⟩

/-- C7 amended witness: the order-preservation theorem applied to a
concrete ascending two-message input, whose selection is ascending. -/
theorem C7_order_preserved_amended_witness :
    AscendingByCreatedAt
      (MultiAgent.get_messages_filter
        [⟨"w4", "user", "first", "2025-01-01T00:00:00Z"⟩,
         ⟨"w5", "user", "second", "2025-01-02T00:00:00Z"⟩]
        (some "2020-01-01T00:00:00Z")) :=
  C7_order_preserved_amended.2.2.1
    [⟨"w4", "user", "first", "2025-01-01T00:00:00Z"⟩,
     ⟨"w5", "user", "second", "2025-01-02T00:00:00Z"⟩]
    (some "2020-01-01T00:00:00Z") (by decide)

/-- C8 counterexample: the claim fails as stated: the _api_call of the
multi_agent (and universal, v2) variant makes a single attempt with no
retry, so with an oracle that fails on the first attempt and would succeed
on the second, the call returns None after exactly one attempt, not
three. -/
theorem C8_single_attempt_no_retry :
    MultiAgent.api_call (fun i => if i == 0 then (none : Option Nat) else some 7)
      = (none, 1)
    ∧ (1 : Nat) ≠ 3 := by
  constructor
  · rfl
  · decide

/-- C8 amended: in the universal_v2 variant every gateway call makes up to
3 attempts with pre-attempt delays [0, 1, 2] seconds: when all three
attempts fail with a network error the call makes exactly 3 attempts,
sleeps those delays, and returns None instead of raising; a first-attempt
success returns the body after one attempt. The multi_agent variant makes
exactly one attempt and returns None on a network error. -/
theorem C8_retry_amended :
    (∀ (oracle : Nat → Option Nat), (∀ i, i < 3 → oracle i = none) →
      UniversalV2.api_call oracle = (none, 3, [0, 1, 2]))
    ∧ (∀ (oracle : Nat → Option Nat) (v : Nat), oracle 0 = some v →
      UniversalV2.api_call oracle = (some v, 1, [0]))
    ∧ (∀ (oracle : Nat → Option Nat), MultiAgent.api_call oracle = (oracle 0, 1)) := by
  refine ⟨?_, ?_, fun oracle => rfl⟩
  · intro oracle h
    have h0 := h 0 (by omega)
    have h1 := h 1 (by omega)
    have h2 := h 2 (by omega)
    simp [UniversalV2.api_call, UniversalV2.RETRY_DELAYS, UniversalV2.api_call_loop,
      h0, h1, h2]
  · intro oracle v hv
    simp [UniversalV2.api_call, UniversalV2.RETRY_DELAYS, UniversalV2.api_call_loop, hv]

/-- C8 amended witness: the retry theorem applied to the oracle that always
fails: the universal_v2 call makes 3 attempts with delays [0, 1, 2] and
returns None. -/
theorem C8_retry_amended_witness :
    UniversalV2.api_call (fun _ => (none : Option Nat)) = (none, 3, [0, 1, 2]) :=
  C8_retry_amended.1 (fun _ => none) (fun _ _ => rfl)

/-- C9 counterexample: the claim fails as stated: in the multi_agent
variant an ordinary exception escaping a poll cycle is not caught (only
KeyboardInterrupt is), so the loop ends in a crash with no final state save
instead of continuing to the next cycle; and in the v2 variant a
KeyboardInterrupt ends the loop without any final state save. -/
theorem C9_exception_kills_loop :
    MultiAgent.run_continuous [CycleOutcome.exc, CycleOutcome.ok]
      = ⟨1, ExitKind.crash, false⟩
    ∧ DaemonV2.run [CycleOutcome.kb] = ⟨1, ExitKind.interrupt, false⟩ := by
  decide

/-- C9 amended: the universal_v2 loop catches every ordinary exception and
continues, and on KeyboardInterrupt stops with a final state save; the
multi_agent loop saves on KeyboardInterrupt but is killed, without a final
save, by any other exception escaping a cycle; the v2 loop continues on
ordinary exceptions but performs no final state save when KeyboardInterrupt
stops it. -/
theorem C9_loop_amended :
    (∀ rest, UniversalV2.run_continuous (CycleOutcome.exc :: rest)
        = (UniversalV2.run_continuous rest).afterCycle)
    ∧ (∀ rest, UniversalV2.run_continuous (CycleOutcome.kb :: rest)
        = ⟨1, ExitKind.interrupt, true⟩)
    ∧ (∀ rest, MultiAgent.run_continuous (CycleOutcome.kb :: rest)
        = ⟨1, ExitKind.interrupt, true⟩)
    ∧ (∀ rest, MultiAgent.run_continuous (CycleOutcome.exc :: rest)
        = ⟨1, ExitKind.crash, false⟩)
    ∧ (∀ rest, DaemonV2.run (CycleOutcome.exc :: rest) = (DaemonV2.run rest).afterCycle)
    ∧ (∀ rest, DaemonV2.run (CycleOutcome.kb :: rest) = ⟨1, ExitKind.interrupt, false⟩) :=
  ⟨fun _ => rfl, fun _ => rfl, fun _ => rfl, fun _ => rfl, fun _ => rfl, fun _ => rfl⟩

/-- C10 counterexample: the claim fails as stated: a state file whose bytes
cannot be decoded as text makes json.load raise UnicodeDecodeError inside
the try block, and `except (json.JSONDecodeError, IOError)` does not catch
it, so load_state raises instead of returning the fresh default state: the
daemon crashes at startup on such a corrupted file. -/
theorem C10_undecodable_state_file_raises :
    load_state (fun _ => none) FileRead.undecodable
      = Except.error PyUncaught.unicodeDecodeError
    ∧ load_state (fun _ => none) FileRead.undecodable ≠ Except.ok freshState :=
  ⟨rfl, fun h => Except.noConfusion h⟩

/-- C10 amended: load_state returns the fresh default state, with an empty
last_checks map and no last_poll, when the state file is missing, when
opening or reading it raises IOError, and when its decoded text fails to
parse as JSON (json.JSONDecodeError); but when the bytes of an existing
file cannot be decoded as text, the resulting UnicodeDecodeError escapes
the except clause and load_state raises, so the daemon crashes at startup
rather than reprocessing from scratch. -/
theorem C10_load_state_amended :
    (∀ parse : String → Option DaemonState,
      load_state parse FileRead.missing = Except.ok freshState)
    ∧ (∀ parse : String → Option DaemonState,
      load_state parse FileRead.ioError = Except.ok freshState)
    ∧ (∀ (parse : String → Option DaemonState) (s : String), parse s = none →
      load_state parse (FileRead.content s) = Except.ok freshState)
    ∧ (∀ parse : String → Option DaemonState,
      load_state parse FileRead.undecodable
        = Except.error PyUncaught.unicodeDecodeError) := by
  refine ⟨fun _ => rfl, fun _ => rfl, fun parse s h => ?_, fun _ => rfl⟩
  simp [load_state, h]

/-- C10 amended witness: the amended theorem applied to a parse that
rejects the concrete corrupted text content. -/
theorem C10_load_state_amended_witness :
    load_state (fun _ => none) (FileRead.content "not json at all")
      = Except.ok freshState :=
  C10_load_state_amended.2.2.1 (fun _ => none) "not json at all" rfl
